import Mathlib

/-!
Verification development for `terminal_weather.c`, a terminal rain/lightning
animation.  The C program is embedded shallowly:

* C `double` values (times, speeds, probabilities) are modelled as `ℚ`;
* C `int` values are modelled as `ℤ` (no overflow is reachable in the
  quantities involved); C integer division/truncating casts are modelled
  with `Int.tdiv` (truncation toward zero, matching C semantics);
* the C library `rand()` is modelled as consuming one value from an
  explicit stream of naturals (`Rng`); each consumed value is reduced
  `% (RAND_MAX + 1)` so it lies in `[0, RAND_MAX]` like `rand()`;
* `now_sec()` (monotonic clock) is modelled by passing the current time
  `t : ℚ` explicitly; within one frame/update the several `now_sec()`
  calls are modelled as returning the same `t`;
* `nanosleep` is an external OS primitive; `sleep_sec` is modelled by the
  duration it is asked to sleep (clamped at the guard `if (s <= 0) return;`);
* the ncurses screen is external: drawing is modelled as the list of
  (row, col, glyph) cells a call would emit; `free`/storage release is
  modelled by removal from the owning container.

The `Bolt` structure carries one piece of instrumentation absent from the
C struct: `trunk`, the number of segments contributed by the primary
growth path (the initial segment plus the `i == 0` push of each growth
tick).  No source field is altered by it.
-/

/-! ## Constants (terminal_weather.c lines 18-32) -/

def RAND_MAX : ℕ := 2147483647

def UPDATE_INTERVAL : ℚ := 15/1000

def LIGHTNING_CHARS : List Char := ['*', '+', '#']

def LIGHTNING_GROWTH_DELAY : ℚ := 2/1000

def LIGHTNING_MAX_BRANCHES : ℕ := 2

def LIGHTNING_BRANCH_CHANCE : ℚ := 3/10

def FORK_CHANCE : ℚ := 15/100

def FORK_HORIZONTAL_SPREAD : ℕ := 3

def SEGMENT_LIFESPAN : ℚ := 8/10

def LIGHTNING_CHANCE : ℚ := 5/1000

/-! ## Random-number stream -/

/-- The random stream: each `rand()` call consumes one entry (0 when the
stream is exhausted), reduced into `[0, RAND_MAX]`. -/
abbrev Rng := List ℕ

def nextRand (rng : Rng) : ℕ × Rng :=
  match rng with
  | [] => (0, [])
  | a :: r => (a % (RAND_MAX + 1), r)

/-- Models the C expression `(double)rand()/RAND_MAX`. -/
def randReal (r : ℕ) : ℚ := (r : ℚ) / (RAND_MAX : ℚ)

/-- Models a C cast `(int)q` of a floating value: truncation toward zero.
Since `q.den > 0`, this is the truncating division of numerator by
denominator. -/
def cIntQ (q : ℚ) : ℤ := q.num.tdiv (q.den : ℤ)

/-! ## Data model (terminal_weather.c lines 37-57) -/

structure Raindrop where
  x : ℤ
  y : ℚ
  speed : ℚ
  ch : Char
deriving DecidableEq

structure Segment where
  y : ℤ
  x : ℤ
  birth : ℚ
deriving DecidableEq

structure Bolt where
  target_len : ℤ
  growing : Bool
  last_growth : ℚ
  max_y : ℤ
  max_x : ℤ
  segs : List Segment
  trunk : ℕ
deriving DecidableEq

/-- Process-wide mutable state of the frame loop: `g_rows`, `g_cols`, the
raindrop store, the bolt store, the thunderstorm flag and the pending
resize flag (`g_resized`). -/
structure Scene where
  rows : ℤ
  cols : ℤ
  rain : List Raindrop
  bolts : List Bolt
  thunder : Bool
  resized : Bool
deriving DecidableEq

/-! ## Timing helpers (lines 66-72) -/

/-- Models `sleep_sec`: the duration actually requested from the OS.
`if (s <= 0) return;` means a non-positive argument sleeps nothing. -/
def sleep_sec (s : ℚ) : ℚ := if s ≤ 0 then 0 else s

/-- Models the pacing statement of the frame loop (line 322):
`if (dt < UPDATE_INTERVAL) sleep_sec(UPDATE_INTERVAL - dt);`. -/
def frame_pacing (dt : ℚ) : ℚ :=
  if dt < UPDATE_INTERVAL then sleep_sec (UPDATE_INTERVAL - dt) else 0

/-! ## Lightning bolt engine (lines 132-230) -/

/-- Lines 135-138 of `bolt_create`: `min_len = max_y / 2`, clamped below
by 2. -/
def bolt_min_len (maxY : ℤ) : ℤ :=
  let m := maxY.tdiv 2
  if m < 2 then 2 else m

/-- Lines 137-138 of `bolt_create`: `max_len = max_y - 2`, replaced by
`min_len + 1` when it falls below `min_len`. -/
def bolt_max_len (maxY : ℤ) : ℤ :=
  let M := maxY - 2
  if M < bolt_min_len maxY then bolt_min_len maxY + 1 else M

/-- `bolt_create` (lines 132-146).  Both `now_sec()` calls of the body are
modelled as the same `t`. -/
def bolt_create (start_row start_col maxY maxX : ℤ) (t : ℚ) (rng : Rng) :
    Bolt × Rng :=
  let p := nextRand rng
  let target := ((p.1 : ℤ) % (bolt_max_len maxY - bolt_min_len maxY + 1)) +
    bolt_min_len maxY
  ({ target_len := target
     growing := true
     last_growth := t
     max_y := maxY
     max_x := maxX
     segs := [⟨start_row, start_col, t⟩]
     trunk := 1 }, p.2)

/-- Loop body pieces of the growth step: `offset = (rand() % 5) - 2`. -/
def branch_offset (r : ℕ) : ℤ := ((r % 5 : ℕ) : ℤ) - 2

/-- The row of a freshly grown segment: `ny = last.y + 1` clamped at
`max_y - 1` (lines 170-171 and 185-186). -/
def next_row (lastY maxY : ℤ) : ℤ :=
  if lastY + 1 ≥ maxY then maxY - 1 else lastY + 1

/-- Column clamping (lines 168-169 and 183-184): first `nx < 0` is raised
to 0, then `nx >= max_x` is lowered to `max_x - 1` (two sequential ifs). -/
def clamp_col (v maxX : ℤ) : ℤ :=
  let v1 := if v < 0 then 0 else v
  if v1 ≥ maxX then maxX - 1 else v1

/-- Lines 157-160: `branches = 1`, replaced with
`rand() % (LIGHTNING_MAX_BRANCHES + 1) + 1` with probability 0.3. -/
def draw_branches (rng : Rng) : ℕ × Rng :=
  let p := nextRand rng
  if randReal p.1 < LIGHTNING_BRANCH_CHANCE then
    let q := nextRand p.2
    (q.1 % (LIGHTNING_MAX_BRANCHES + 1) + 1, q.2)
  else (1, p.2)

/-- Iterations `i = 1 .. branches-1` of the growth loop (lines 165-177):
each consumes one random offset, pushes one segment at `next_row`, and
advances `current_x`.  (Iteration `i = 0`, which also records
`primary_next_x` and is the trunk contribution, is inlined in
`bolt_grow`.) -/
def branch_loop (lastY : ℤ) (t : ℚ) : ℕ → Bolt → ℤ → Rng → Bolt × ℤ × Rng
  | 0, b, cx, rng => (b, cx, rng)
  | Nat.succ n, b, cx, rng =>
      let p := nextRand rng
      let nx := clamp_col (cx + branch_offset p.1) b.max_x
      branch_loop lastY t n
        { b with segs := b.segs ++ [⟨next_row lastY b.max_y, nx, t⟩] } nx p.2

/-- Lines 180-181: fork offset drawn from `[-3, 3]`, remapped to `±1` when
0 is drawn. -/
def fork_offset (rng : Rng) : ℤ × Rng :=
  let p := nextRand rng
  let off : ℤ := ((p.1 % (2 * FORK_HORIZONTAL_SPREAD + 1) : ℕ) : ℤ) -
    (FORK_HORIZONTAL_SPREAD : ℤ)
  if off = 0 then
    let q := nextRand p.2
    ((if q.1 % 2 = 1 then -1 else 1), q.2)
  else (off, p.2)

/-- Lines 179-192: with probability 0.15 add one extra side segment,
provided its clamped column differs from `primary_next_x`. -/
def fork_step (b : Bolt) (last : Segment) (primary_next_x : ℤ) (t : ℚ)
    (rng : Rng) : Bolt × Rng :=
  let p := nextRand rng
  if randReal p.1 < FORK_CHANCE then
    let q := fork_offset p.2
    let fx := clamp_col (last.x + q.1) b.max_x
    if fx ≠ primary_next_x then
      ({ b with segs := b.segs ++ [⟨next_row last.y b.max_y, fx, t⟩] }, q.2)
    else (b, q.2)
  else (b, p.2)

/-- The growth block of `bolt_update` (lines 151-197), entered when the
bolt is growing and the growth delay elapsed.  On the path where the
guard of line 156 holds, the loop runs at least once (`branches >= 1`),
so the C flag `added` is `true` there and the freeze test of line 195
reduces to its other two disjuncts; on the path where the guard fails,
`added` is `false` and the bolt freezes. -/
def grow_added (b1 : Bolt) (last : Segment) (t : ℚ) (rng : Rng) :
    Bolt × Rng :=
  -- lines 157-192: the branch loop (iteration 0 inlined, recording
  -- `primary_next_x` and contributing to the trunk) followed by the fork
  let br := draw_branches rng
  let p := nextRand br.2
  let nx := clamp_col (last.x + branch_offset p.1) b1.max_x
  let b2 : Bolt := { b1 with
    segs := b1.segs ++ [⟨next_row last.y b1.max_y, nx, t⟩]
    trunk := b1.trunk + 1 }
  let bl := branch_loop last.y t (br.1 - 1) b2 nx p.2
  fork_step bl.1 last nx t bl.2.2

def bolt_grow (b : Bolt) (t : ℚ) (rng : Rng) : Bolt × Rng :=
  let b1 : Bolt := { b with last_growth := t }
  let last := b1.segs.getLastD ⟨0, 0, 0⟩
  if (b1.segs.length : ℤ) < b1.target_len ∧ last.y < b1.max_y - 1 then
    let fk := grow_added b1 last t rng
    if (fk.1.segs.length : ℤ) ≥ fk.1.target_len ∨ last.y ≥ fk.1.max_y - 1 then
      ({ fk.1 with growing := false }, fk.2)
    else (fk.1, fk.2)
  else
    ({ b1 with growing := false }, rng)

/-- Liveness scan of lines 201-204: some segment has age at most
`SEGMENT_LIFESPAN`. -/
def bolt_alive (t : ℚ) (b : Bolt) : Bool :=
  b.segs.any fun s => decide (t - s.birth ≤ SEGMENT_LIFESPAN)

/-- `bolt_update` (lines 148-206): optional growth step, then the liveness
result returned to the caller. -/
def bolt_update (b : Bolt) (t : ℚ) (rng : Rng) : Bolt × Bool × Rng :=
  let g :=
    if b.growing = true ∧ LIGHTNING_GROWTH_DELAY ≤ t - b.last_growth then
      bolt_grow b t rng
    else (b, rng)
  (g.1, bolt_alive t g.1, g.2)

/-- Glyph selection of `bolt_draw` (lines 213-224) for one segment age:
expired segments produce nothing, otherwise the index into
`LIGHTNING_CHARS` is chosen from the normalized age and clamped into
`[0, max_idx]`. -/
def fade_char (age : ℚ) : Option Char :=
  if age > SEGMENT_LIFESPAN then none
  else
    let norm := age / SEGMENT_LIFESPAN
    let char_idx : ℤ := if norm < 33/100 then 2 else if norm < 66/100 then 1 else 0
    let ci1 := if char_idx < 0 then 0 else char_idx
    let ci2 := if ci1 > 2 then 2 else ci1
    some (LIGHTNING_CHARS.getD ci2.toNat ' ')

/-- One segment of `bolt_draw` (lines 212-229): the cell written, if any
(`mvaddch` only for on-screen coordinates). -/
def seg_draw (t : ℚ) (rows cols : ℤ) (s : Segment) : Option (ℤ × ℤ × Char) :=
  match fade_char (t - s.birth) with
  | none => none
  | some c =>
      if 0 ≤ s.y ∧ s.y < rows ∧ 0 ≤ s.x ∧ s.x < cols then some (s.y, s.x, c)
      else none

/-- `bolt_draw` (lines 208-230) as the list of cells written. -/
def bolt_draw (b : Bolt) (t : ℚ) (rows cols : ℤ) : List (ℤ × ℤ × Char) :=
  b.segs.filterMap (seg_draw t rows cols)

/-! ## Raindrop simulator (lines 342-367) -/

def rain_glyph_set : List Char := ['|', '.', Char.ofNat 96]

/-- The advance of one drop: `rain.v[i].y += rain.v[i].speed;` (line 362). -/
def step_drop (d : Raindrop) : Raindrop := { d with y := d.y + d.speed }

/-- The advance-and-retire compaction loop (lines 360-367): every drop
falls by its speed, and is kept exactly when its integer row is still
above the bottom of the screen. -/
def advance_and_retire (h : ℤ) : List Raindrop → List Raindrop
  | [] => []
  | d :: rest =>
      let d' := step_drop d
      if cIntQ d'.y < h then d' :: advance_and_retire h rest
      else advance_and_retire h rest

/-- The spawn loop body (lines 349-357), executed `n` times: column
`rand() % (cols > 1 ? cols : 1)`, row 0, a random speed in
`[min_speed, max_speed]` and one of three glyphs. -/
def spawn_drops (cols : ℤ) (min_speed max_speed : ℚ) :
    ℕ → Rng → List Raindrop × Rng
  | 0, rng => ([], rng)
  | Nat.succ n, rng =>
      let px := nextRand rng
      let x : ℤ := (px.1 : ℤ) % (if cols > 1 then cols else 1)
      let ps := nextRand px.2
      let speed := min_speed + randReal ps.1 * (max_speed - min_speed)
      let pc := nextRand ps.2
      let ch := rain_glyph_set.getD (pc.1 % 3) ' '
      let rest := spawn_drops cols min_speed max_speed n pc.2
      (⟨x, 0, speed, ch⟩ :: rest.1, rest.2)

/-- The raindrop spawn phase (lines 342-358).  `rand()` for the batch
size is only drawn when `max_new > 1`, mirroring the conditional
expression of line 348. -/
def rain_spawn_phase (s : Scene) (rng : Rng) : Scene × Rng :=
  let gen_chance : ℚ := if s.thunder then 5/10 else 3/10
  let max_new : ℤ := if s.thunder then s.cols.tdiv 8 else s.cols.tdiv 15
  let min_speed : ℚ := 3/10
  let max_speed : ℚ := if s.thunder then 1 else 6/10
  let p := nextRand rng
  if randReal p.1 < gen_chance then
    let nn :=
      if max_new > 1 then
        let q := nextRand p.2
        (1 + (q.1 : ℤ) % max_new, q.2)
      else ((1 : ℤ), p.2)
    let ds := spawn_drops s.cols min_speed max_speed nn.1.toNat nn.2
    ({ s with rain := s.rain ++ ds.1 }, ds.2)
  else (s, p.2)

/-! ## Frame loop (lines 300-385) -/

/-- Resize acknowledgement (lines 301-311): clear the raindrop store,
release every bolt, re-read the screen dimensions (`nd`), reset the
flag.  The thunder flag is untouched. -/
def resize_phase (s : Scene) (nd : ℤ × ℤ) : Scene :=
  if s.resized then
    { s with
      resized := false
      rows := nd.1
      cols := nd.2
      rain := []
      bolts := [] }
  else s

/-- Input handling (lines 313-318): `getch` result `ch` (an int);
`q`/`Q`/ESC quit (`none`), `t`/`T` toggles thunderstorm mode (the
`clear()` only touches the screen, not the stores). -/
def input_phase (s : Scene) (ch : ℤ) : Option Scene :=
  if ch = 113 ∨ ch = 81 ∨ ch = 27 then none
  else if ch = 116 ∨ ch = 84 then some { s with thunder := !s.thunder }
  else some s

/-- Bolt spawning (lines 325-330): gated on thunderstorm mode and fewer
than 3 bolts (both checked before any `rand()` is drawn, mirroring the
short-circuit of `&&`), then on a 0.005 chance. -/
def spawn_bolt_phase (s : Scene) (t : ℚ) (rng : Rng) : Scene × Rng :=
  if s.thunder = true ∧ s.bolts.length < 3 then
    let p := nextRand rng
    if randReal p.1 < LIGHTNING_CHANCE then
      let pc := nextRand p.2
      let start_col := s.cols.tdiv 4 + (pc.1 : ℤ) % (s.cols.tdiv 2)
      let pr := nextRand pc.2
      let start_row := (pr.1 : ℤ) %
        (if s.rows > 5 then s.rows.tdiv 5 else s.rows)
      let cb := bolt_create start_row start_col s.rows s.cols t pr.2
      ({ s with bolts := s.bolts ++ [cb.1] }, cb.2)
    else (s, p.2)
  else (s, rng)

/-- The bolt update/compaction loop (lines 332-340): each bolt is
updated; survivors are kept in order, dead bolts are dropped (their
segment storage freed). -/
def bolts_phase (t : ℚ) : List Bolt → Rng → List Bolt × Rng
  | [], rng => ([], rng)
  | b :: rest, rng =>
      let u := bolt_update b t rng
      let r := bolts_phase t rest u.2.2
      (if u.2.1 then u.1 :: r.1 else r.1, r.2)

/-- The same loop without the compaction: every updated bolt kept.  Used
to state what the compaction removes. -/
def bolt_update_all (t : ℚ) : List Bolt → Rng → List Bolt × Rng
  | [], rng => ([], rng)
  | b :: rest, rng =>
      let u := bolt_update b t rng
      let r := bolt_update_all t rest u.2.2
      (u.1 :: r.1, r.2)

/-- The simulation body of one frame-loop iteration after input handling
(lines 325-367): bolt spawn, bolt update/compaction, raindrop spawn,
raindrop advance-and-retire.  Pacing and rendering have no effect on the
stores. -/
def frame_core (s2 : Scene) (t : ℚ) (rng : Rng) : Scene × Rng :=
  let sb := spawn_bolt_phase s2 t rng
  let bp := bolts_phase t sb.1.bolts sb.2
  let s4 : Scene := { sb.1 with bolts := bp.1 }
  let rs := rain_spawn_phase s4 bp.2
  ({ rs.1 with rain := advance_and_retire rs.1.rows rs.1.rain }, rs.2)

/-- One iteration of the frame loop (lines 300-384) as a state
transition: resize acknowledgement, input (quit gives `none`), then the
simulation body `frame_core`. -/
def frame_step (s : Scene) (nd : ℤ × ℤ) (ch : ℤ) (t : ℚ) (rng : Rng) :
    Option (Scene × Rng) :=
  match input_phase (resize_phase s nd) ch with
  | none => none
  | some s2 => some (frame_core s2 t rng)

/-! ## Startup precondition (lines 271-274) -/

inductive StartupEffect where
  | stderr_diag
  | enter_curses
deriving DecidableEq

/-- The value of the `TERM` environment variable, as a character list
(`none` models `getenv` returning `NULL`). -/
def dumb_term : List Char := ['d', 'u', 'm', 'b']

/-- The fatal precondition of line 271:
`!isatty(STDOUT_FILENO) || getenv("TERM") == NULL || strcmp(getenv("TERM"), "dumb") == 0`. -/
def tty_check_fails (tty : Bool) (term : Option (List Char)) : Bool :=
  !tty || term.isNone || term == some dumb_term

/-- Lines 271-278 of `main`: on a failed check, one diagnostic on stderr
and exit status 1, before `initscr()`; otherwise curses mode is entered
and the program proceeds (exit decided later by the loop). -/
def main_startup (tty : Bool) (term : Option (List Char)) :
    List StartupEffect × Option ℤ :=
  if tty_check_fails tty term then ([StartupEffect.stderr_diag], some 1)
  else ([StartupEffect.enter_curses], none)

/-! ## Spec-side definitions (for refinement comparisons) -/

/-- Modelled from the spec: lower endpoint of the claimed `target_length`
interval, `max(2, max_rows/2)`. -/
def spec_target_lo (max_rows : ℤ) : ℤ := max 2 (max_rows.tdiv 2)

/-- Modelled from the spec: upper endpoint of the claimed `target_length`
interval, `max(min_len+1, max_rows-2)` with `min_len` the (clamped)
lower endpoint. -/
def spec_target_hi (max_rows : ℤ) : ℤ :=
  max (spec_target_lo max_rows + 1) (max_rows - 2)

/-- The spec's description of `advance_and_retire`: advance every drop,
keep exactly those whose integer row is below the screen height. -/
def spec_advance_retire (h : ℤ) (l : List Raindrop) : List Raindrop :=
  (l.map step_drop).filter fun d => cIntQ d.y < h

/-- The well-formedness invariant behind claim C2: the trunk never
outgrows `target_len`, and trunk segments are among the stored
segments. -/
def BoltWF (b : Bolt) : Prop :=
  (b.trunk : ℤ) ≤ b.target_len ∧ b.trunk ≤ b.segs.length

/-! ## Helper lemmas -/

theorem advance_retire_eq (h : ℤ) (l : List Raindrop) :
    advance_and_retire h l = spec_advance_retire h l := by
  induction l with
  | nil => rfl
  | cons d rest ih =>
      simp only [advance_and_retire, spec_advance_retire, List.map_cons,
        List.filter_cons] at *
      by_cases hc : cIntQ (step_drop d).y < h
      · simp [hc, ih]
      · simp [hc, ih]

theorem advance_retire_mem (h : ℤ) (l : List Raindrop) (d' : Raindrop)
    (hm : d' ∈ advance_and_retire h l) :
    cIntQ d'.y < h ∧ ∃ d ∈ l, d' = step_drop d := by
  rw [advance_retire_eq] at hm
  unfold spec_advance_retire at hm
  have h1 := List.of_mem_filter hm
  have h2 := List.mem_of_mem_filter hm
  rw [List.mem_map] at h2
  obtain ⟨d, hd, hds⟩ := h2
  refine ⟨by simpa using h1, d, hd, hds.symm⟩

/-! ## Claim C6: frame pacing -/

/-- Claim C6: when a frame finishes in less than the target interval the
loop sleeps exactly the remaining budget, a non-positive budget sleeps
nothing, and the requested sleep duration is never negative. -/
theorem c6_frame_pacing (dt : ℚ) :
    (dt < UPDATE_INTERVAL → frame_pacing dt = UPDATE_INTERVAL - dt) ∧
    0 ≤ frame_pacing dt ∧
    (UPDATE_INTERVAL ≤ dt → frame_pacing dt = 0) ∧
    (∀ s : ℚ, s ≤ 0 → sleep_sec s = 0) := by
  unfold frame_pacing sleep_sec
  refine ⟨?_, ?_, ?_, ?_⟩
  · intro h
    rw [if_pos h, if_neg (by linarith)]
  · split
    · split
      · rfl
      · linarith
    · rfl
  · intro h
    rw [if_neg (not_lt.mpr h)]
  · intro s hs
    simp [hs]

/-- Witness for C6 at a concrete early-finishing frame. -/
theorem c6_frame_pacing_witness :
    frame_pacing (1/100) = UPDATE_INTERVAL - 1/100 :=
  (c6_frame_pacing (1/100)).1 (by norm_num [UPDATE_INTERVAL])

/-! ## Claim C4: fade glyph selection -/

/-- Claim C4: the glyph drawn for a segment is a pure function of its age:
with normalized age `age/0.8`, a value below 0.33 selects `#`, below 0.66
selects `+`, otherwise `*`; an age above 0.8 produces no cell at all
(`seg_draw` skips the segment; nothing is removed). -/
theorem c4_fade_glyph (age : ℚ) :
    (age > SEGMENT_LIFESPAN → fade_char age = none) ∧
    (age ≤ SEGMENT_LIFESPAN →
      (age / SEGMENT_LIFESPAN < 33/100 → fade_char age = some '#') ∧
      (¬ age / SEGMENT_LIFESPAN < 33/100 → age / SEGMENT_LIFESPAN < 66/100 →
        fade_char age = some '+') ∧
      (¬ age / SEGMENT_LIFESPAN < 66/100 → fade_char age = some '*')) ∧
    (∀ (t : ℚ) (rows cols : ℤ) (s : Segment), t - s.birth > SEGMENT_LIFESPAN →
      seg_draw t rows cols s = none) := by
  refine ⟨?_, ?_, ?_⟩
  · intro h
    unfold fade_char
    rw [if_pos h]
  · intro hle
    refine ⟨?_, ?_, ?_⟩
    · intro h1
      unfold fade_char
      rw [if_neg (not_lt.mpr hle)]
      simp only [if_pos h1]
      rfl
    · intro h1 h2
      unfold fade_char
      rw [if_neg (not_lt.mpr hle)]
      simp only [if_neg h1, if_pos h2]
      rfl
    · intro h2
      unfold fade_char
      rw [if_neg (not_lt.mpr hle)]
      have h1 : ¬ age / SEGMENT_LIFESPAN < 33/100 := by
        intro hc
        exact h2 (by linarith)
      simp only [if_neg h1, if_neg h2]
      rfl
  · intro t rows cols s h
    unfold seg_draw fade_char
    rw [if_pos h]

/-- Witness for C4: a fresh segment (age 0.1) is drawn as `#`, and an
expired segment produces no cell. -/
theorem c4_fade_glyph_witness :
    fade_char (1/10) = some '#' ∧
    seg_draw 1 10 10 ⟨2, 3, 0⟩ = none := by
  constructor
  · exact ((c4_fade_glyph (1/10)).2.1 (by norm_num [SEGMENT_LIFESPAN])).1
      (by norm_num [SEGMENT_LIFESPAN])
  · exact (c4_fade_glyph 0).2.2 1 10 10 ⟨2, 3, 0⟩
      (by norm_num [SEGMENT_LIFESPAN])

/-! ## Claim C9: startup TTY precondition -/

/-- Claim C9: exactly when stdout is not a TTY or `TERM` is absent or
`dumb`, the program writes one diagnostic to stderr and exits with the
non-zero status 1 without ever entering curses mode; no other startup
condition is fatal. -/
theorem c9_startup_check (tty : Bool) (term : Option (List Char)) :
    ((main_startup tty term).2 = some 1 ↔ tty_check_fails tty term = true) ∧
    (tty_check_fails tty term = true →
      (main_startup tty term).1 = [StartupEffect.stderr_diag] ∧
      StartupEffect.enter_curses ∉ (main_startup tty term).1) ∧
    (tty_check_fails tty term = false →
      (main_startup tty term).2 = none ∧
      (main_startup tty term).1 = [StartupEffect.enter_curses]) := by
  by_cases h : tty_check_fails tty term = true
  · refine ⟨by simp [main_startup, h], ?_, ?_⟩
    · intro _
      constructor
      · simp [main_startup, h]
      · simp [main_startup, h]
    · intro hf
      rw [h] at hf
      cases hf
  · have h' : tty_check_fails tty term = false := by
      cases hv : tty_check_fails tty term
      · rfl
      · exact absurd hv h
    refine ⟨by simp [main_startup, h'], ?_, ?_⟩
    · intro ht
      rw [ht] at h'
      cases h'
    · intro _
      exact ⟨by simp [main_startup, h'], by simp [main_startup, h']⟩

/-- Witness for C9: with no TTY the startup exits with status 1 and never
enters curses mode; with a TTY and `TERM=xterm` it proceeds. -/
theorem c9_startup_check_witness :
    (main_startup false (some ['x', 't', 'e', 'r', 'm'])).2 = some 1 ∧
    StartupEffect.enter_curses ∉
      (main_startup false (some ['x', 't', 'e', 'r', 'm'])).1 ∧
    (main_startup true (some ['x', 't', 'e', 'r', 'm'])).2 = none := by
  refine ⟨(c9_startup_check false (some ['x', 't', 'e', 'r', 'm'])).1.mpr
      (by decide),
    ((c9_startup_check false (some ['x', 't', 'e', 'r', 'm'])).2.1
      (by decide)).2,
    ((c9_startup_check true (some ['x', 't', 'e', 'r', 'm'])).2.2
      (by decide)).1⟩

/-! ## Claim C3: raindrop advance and retire -/

/-- Claim C3: one advance-and-retire pass over the raindrop store equals
advancing every drop by its speed and keeping, exactly once each and in
order, exactly those drops whose integer row stays below the screen
height; consequently every survivor's row is its previous row plus its
speed and no survivor has integer row at or past the bottom. -/
theorem c3_advance_and_retire (h : ℤ) (l : List Raindrop) :
    advance_and_retire h l = spec_advance_retire h l ∧
    (∀ d' ∈ advance_and_retire h l,
      cIntQ d'.y < h ∧ ∃ d ∈ l, d' = step_drop d) ∧
    (∀ x : Raindrop, (advance_and_retire h l).count x =
      ((l.map step_drop).filter fun d => decide (cIntQ d.y < h)).count x) := by
  refine ⟨advance_retire_eq h l, fun d' hm => advance_retire_mem h l d' hm, ?_⟩
  intro x
  rw [advance_retire_eq]
  rfl

/-- Witness for C3 on a one-drop store: the survivor fell by its speed and
sits above the bottom row. -/
theorem c3_advance_and_retire_witness :
    ∃ d' ∈ advance_and_retire 3 [⟨5, 0, 1, '|'⟩],
      cIntQ d'.y < 3 ∧ ∃ d ∈ [(⟨5, 0, 1, '|'⟩ : Raindrop)], d' = step_drop d := by
  have hmem : (⟨5, 0 + 1, 1, '|'⟩ : Raindrop) ∈
      advance_and_retire 3 [⟨5, 0, 1, '|'⟩] := by
    unfold advance_and_retire step_drop
    have hc : cIntQ ((0 : ℚ) + 1) = 0 + 1 := by norm_num [cIntQ]
    rw [if_pos (by rw [hc]; norm_num)]
    exact List.mem_singleton.mpr rfl
  exact ⟨_, hmem, (c3_advance_and_retire 3 [⟨5, 0, 1, '|'⟩]).2.1 _ hmem⟩

/-! ## Claim C5: target length of a created bolt -/

theorem bolt_min_le_max (maxY : ℤ) : bolt_min_len maxY ≤ bolt_max_len maxY := by
  simp only [bolt_max_len, bolt_min_len]
  generalize maxY.tdiv 2 = m
  split_ifs <;> omega

theorem bolt_create_target (sr sc maxY mx : ℤ) (t : ℚ) (rng : Rng) :
    (bolt_create sr sc maxY mx t rng).1.target_len =
      ((nextRand rng).1 : ℤ) % (bolt_max_len maxY - bolt_min_len maxY + 1) +
        bolt_min_len maxY := rfl

/-- Counterexample to C5 as stated: at `max_rows = 4` the spec's interval
formula gives an upper endpoint of 3, while the code's `max_len` is 2 —
and indeed a concrete creation yields `target_length = 2`, the only
achievable value (the amended theorem bounds every run by
`bolt_max_len`). -/
theorem c5_target_len_counterexample :
    spec_target_hi 4 = 3 ∧ bolt_max_len 4 = 2 ∧
      (bolt_create 0 5 4 80 0 [1]).1.target_len = 2 := by decide

/-- Claim C5 (amended): `target_length` is drawn from
`[min_len, max_len]` with `min_len = max(2, max_rows/2)` and
`max_len = max_rows - 2`, bumped to `min_len + 1` when `max_rows - 2`
falls below `min_len` (this differs from the spec's
`max(min_len+1, max_rows-2)` only when `max_rows - 2 = min_len`); in
particular, for `max_rows = 20` every seed gives a value in `[10, 18]`
and every value of `[10, 18]` is reached by some seed. -/
theorem c5_target_len_range (sr sc maxY mx : ℤ) (t : ℚ) (rng : Rng) :
    (bolt_min_len maxY ≤ (bolt_create sr sc maxY mx t rng).1.target_len ∧
     (bolt_create sr sc maxY mx t rng).1.target_len ≤ bolt_max_len maxY) ∧
    (maxY = 20 → 10 ≤ (bolt_create sr sc maxY mx t rng).1.target_len ∧
      (bolt_create sr sc maxY mx t rng).1.target_len ≤ 18) ∧
    (∀ v : ℤ, 10 ≤ v → v ≤ 18 → ∃ rng' : Rng,
      (bolt_create sr sc 20 mx t rng').1.target_len = v) := by
  have hle := bolt_min_le_max maxY
  have hpos : 0 < bolt_max_len maxY - bolt_min_len maxY + 1 := by omega
  have hrange : bolt_min_len maxY ≤ (bolt_create sr sc maxY mx t rng).1.target_len ∧
      (bolt_create sr sc maxY mx t rng).1.target_len ≤ bolt_max_len maxY := by
    rw [bolt_create_target]
    have h1 : 0 ≤ ((nextRand rng).1 : ℤ) %
        (bolt_max_len maxY - bolt_min_len maxY + 1) :=
      Int.emod_nonneg _ (by omega)
    have h2 : ((nextRand rng).1 : ℤ) %
        (bolt_max_len maxY - bolt_min_len maxY + 1) <
        bolt_max_len maxY - bolt_min_len maxY + 1 :=
      Int.emod_lt_of_pos _ hpos
    omega
  refine ⟨hrange, ?_, ?_⟩
  · intro h20
    subst h20
    have ha : bolt_min_len 20 = 10 := by decide
    have hb : bolt_max_len 20 = 18 := by decide
    omega
  · intro v hv1 hv2
    refine ⟨[(v - 10).toNat], ?_⟩
    rw [bolt_create_target]
    have ha : bolt_min_len 20 = 10 := by decide
    have hb : bolt_max_len 20 = 18 := by decide
    rw [ha, hb]
    simp only [nextRand, RAND_MAX]
    push_cast
    omega

/-- Witness for C5 (amended) at `max_rows = 20`: the concrete creation with
seed value 7 yields length 17, inside `[10, 18]`, and 13 is reached. -/
theorem c5_target_len_witness :
    (10 ≤ (bolt_create 0 40 20 80 0 [7]).1.target_len ∧
      (bolt_create 0 40 20 80 0 [7]).1.target_len ≤ 18) ∧
    ∃ rng' : Rng, (bolt_create 0 40 20 80 0 rng').1.target_len = 13 :=
  ⟨(c5_target_len_range 0 40 20 80 0 [7]).2.1 rfl,
   (c5_target_len_range 0 40 20 80 0 []).2.2 13 (by norm_num) (by norm_num)⟩


/-! ## Structural lemmas about bolt growth -/

theorem branch_loop_spec (lastY : ℤ) (t : ℚ) (n : ℕ) :
    ∀ (b : Bolt) (cx : ℤ) (rng : Rng),
      ((branch_loop lastY t n b cx rng).1.target_len = b.target_len ∧
       (branch_loop lastY t n b cx rng).1.trunk = b.trunk ∧
       (branch_loop lastY t n b cx rng).1.max_y = b.max_y ∧
       (branch_loop lastY t n b cx rng).1.max_x = b.max_x ∧
       (branch_loop lastY t n b cx rng).1.growing = b.growing ∧
       (branch_loop lastY t n b cx rng).1.last_growth = b.last_growth) ∧
      b.segs <+: (branch_loop lastY t n b cx rng).1.segs := by
  induction n with
  | zero =>
      intro b cx rng
      exact ⟨⟨rfl, rfl, rfl, rfl, rfl, rfl⟩, List.prefix_rfl⟩
  | succ n ih =>
      intro b cx rng
      simp only [branch_loop]
      refine ⟨(ih _ _ _).1, List.IsPrefix.trans ?_ (ih _ _ _).2⟩
      exact List.prefix_append _ _

theorem fork_step_spec (b : Bolt) (last : Segment) (pnx : ℤ) (t : ℚ)
    (rng : Rng) :
    ((fork_step b last pnx t rng).1.target_len = b.target_len ∧
     (fork_step b last pnx t rng).1.trunk = b.trunk ∧
     (fork_step b last pnx t rng).1.max_y = b.max_y ∧
     (fork_step b last pnx t rng).1.max_x = b.max_x ∧
     (fork_step b last pnx t rng).1.growing = b.growing ∧
     (fork_step b last pnx t rng).1.last_growth = b.last_growth) ∧
    b.segs <+: (fork_step b last pnx t rng).1.segs := by
  simp only [fork_step]
  split_ifs
  · exact ⟨⟨rfl, rfl, rfl, rfl, rfl, rfl⟩, List.prefix_append _ _⟩
  · exact ⟨⟨rfl, rfl, rfl, rfl, rfl, rfl⟩, List.prefix_rfl⟩
  · exact ⟨⟨rfl, rfl, rfl, rfl, rfl, rfl⟩, List.prefix_rfl⟩

theorem grow_added_spec (b1 : Bolt) (last : Segment) (t : ℚ) (rng : Rng) :
    ((grow_added b1 last t rng).1.target_len = b1.target_len ∧
     (grow_added b1 last t rng).1.max_y = b1.max_y ∧
     (grow_added b1 last t rng).1.max_x = b1.max_x ∧
     (grow_added b1 last t rng).1.growing = b1.growing ∧
     (grow_added b1 last t rng).1.last_growth = b1.last_growth ∧
     (grow_added b1 last t rng).1.trunk = b1.trunk + 1) ∧
    b1.segs <+: (grow_added b1 last t rng).1.segs ∧
    b1.segs.length + 1 ≤ (grow_added b1 last t rng).1.segs.length := by
  simp only [grow_added]
  set r2 := nextRand (draw_branches rng).2 with hr2
  set nx := clamp_col (last.x + branch_offset r2.1) b1.max_x with hnx
  set b2 : Bolt := { b1 with
    segs := b1.segs ++ [⟨next_row last.y b1.max_y, nx, t⟩]
    trunk := b1.trunk + 1 } with hb2
  set bl := branch_loop last.y t ((draw_branches rng).1 - 1) b2 nx r2.2
    with hbl
  have h1 := branch_loop_spec last.y t ((draw_branches rng).1 - 1) b2 nx r2.2
  rw [← hbl] at h1
  have h2 := fork_step_spec bl.1 last nx t bl.2.2
  have h3 := List.IsPrefix.length_le (h1.2.trans h2.2)
  refine ⟨⟨?_, ?_, ?_, ?_, ?_, ?_⟩, ?_, ?_⟩
  · rw [h2.1.1, h1.1.1]
  · rw [h2.1.2.2.1, h1.1.2.2.1]
  · rw [h2.1.2.2.2.1, h1.1.2.2.2.1]
  · rw [h2.1.2.2.2.2.1, h1.1.2.2.2.2.1]
  · rw [h2.1.2.2.2.2.2, h1.1.2.2.2.2.2]
  · rw [h2.1.2.1, h1.1.2.1]
  · have hpa := List.prefix_append b1.segs
      [(⟨next_row last.y b1.max_y, nx, t⟩ : Segment)]
    exact (hpa.trans h1.2).trans h2.2
  · simpa [hb2] using h3

theorem bolt_grow_spec (b : Bolt) (t : ℚ) (rng : Rng) :
    ((bolt_grow b t rng).1.target_len = b.target_len ∧
     (bolt_grow b t rng).1.max_y = b.max_y ∧
     (bolt_grow b t rng).1.max_x = b.max_x) ∧
    b.segs <+: (bolt_grow b t rng).1.segs ∧
    (((bolt_grow b t rng).1.trunk = b.trunk ∧
      (bolt_grow b t rng).1.segs = b.segs) ∨
     ((bolt_grow b t rng).1.trunk = b.trunk + 1 ∧
      (b.segs.length : ℤ) < b.target_len ∧
      b.segs.length + 1 ≤ (bolt_grow b t rng).1.segs.length)) := by
  simp only [bolt_grow]
  split
  · rename_i hguard
    have hg := grow_added_spec { b with last_growth := t }
      ((Bolt.segs { b with last_growth := t }).getLastD ⟨0, 0, 0⟩) t rng
    split
    · refine ⟨⟨?_, ?_, ?_⟩, hg.2.1, Or.inr ⟨hg.1.2.2.2.2.2, hguard.1, hg.2.2⟩⟩
      · exact hg.1.1
      · exact hg.1.2.1
      · exact hg.1.2.2.1
    · refine ⟨⟨?_, ?_, ?_⟩, hg.2.1, Or.inr ⟨hg.1.2.2.2.2.2, hguard.1, hg.2.2⟩⟩
      · exact hg.1.1
      · exact hg.1.2.1
      · exact hg.1.2.2.1
  · exact ⟨⟨rfl, rfl, rfl⟩, List.prefix_rfl, Or.inl ⟨rfl, rfl⟩⟩

theorem bolt_update_spec (b : Bolt) (t : ℚ) (rng : Rng) :
    ((bolt_update b t rng).1.target_len = b.target_len ∧
     (bolt_update b t rng).1.max_y = b.max_y ∧
     (bolt_update b t rng).1.max_x = b.max_x) ∧
    b.segs <+: (bolt_update b t rng).1.segs ∧
    (((bolt_update b t rng).1.trunk = b.trunk ∧
      (bolt_update b t rng).1.segs = b.segs) ∨
     ((bolt_update b t rng).1.trunk = b.trunk + 1 ∧
      (b.segs.length : ℤ) < b.target_len ∧
      b.segs.length + 1 ≤ (bolt_update b t rng).1.segs.length)) := by
  simp only [bolt_update]
  split
  · exact bolt_grow_spec b t rng
  · exact ⟨⟨rfl, rfl, rfl⟩, List.prefix_rfl, Or.inl ⟨rfl, rfl⟩⟩

/-! ## Claims C1 and C2: bolt lifecycle and trunk bound -/

theorem bolt_alive_false_iff (t : ℚ) (b : Bolt) :
    bolt_alive t b = false ↔ ∀ s ∈ b.segs, SEGMENT_LIFESPAN < t - s.birth := by
  unfold bolt_alive
  rw [← Bool.not_eq_true, List.any_eq_true]
  push_neg
  constructor
  · intro h s hs
    have h2 := h s hs
    have h3 : ¬ (t - s.birth ≤ SEGMENT_LIFESPAN) :=
      fun hc => h2 (decide_eq_true hc)
    exact not_le.mp h3
  · intro h s hs hc
    exact absurd (of_decide_eq_true hc) (not_le.mpr (h s hs))

theorem bolts_phase_filter (t : ℚ) (bs : List Bolt) : ∀ rng : Rng,
    (bolts_phase t bs rng).1 =
      ((bolt_update_all t bs rng).1).filter (bolt_alive t) := by
  induction bs with
  | nil => intro rng; rfl
  | cons b rest ih =>
      intro rng
      simp only [bolts_phase, bolt_update_all, List.filter_cons]
      rw [show (bolt_update b t rng).2.1 =
        bolt_alive t (bolt_update b t rng).1 from rfl]
      cases h : bolt_alive t (bolt_update b t rng).1 <;> simp [h, ih]

theorem bolt_min_len_ge_two (maxY : ℤ) : 2 ≤ bolt_min_len maxY := by
  simp only [bolt_min_len]
  split_ifs <;> omega

theorem bolt_create_target_ge_two (sr sc my mx : ℤ) (t : ℚ) (rng : Rng) :
    2 ≤ (bolt_create sr sc my mx t rng).1.target_len := by
  rw [bolt_create_target]
  have h0 := bolt_min_le_max my
  have h1 := Int.emod_nonneg ((nextRand rng).1 : ℤ)
    (show bolt_max_len my - bolt_min_len my + 1 ≠ 0 by omega)
  have h2 := bolt_min_len_ge_two my
  omega

/-- Claim C1: a freshly created bolt has a non-empty segment list, an
update never removes segments (so the list stays non-empty until the bolt
leaves the store), the liveness flag an update returns is false exactly
when every segment of the updated bolt has age strictly above
`SEGMENT_LIFESPAN` (0.8 s), and the frame loop's compaction keeps exactly
the updated bolts whose flag is live — so a bolt is removed if and only
if all its segments are expired at the check. -/
theorem c1_bolt_removal (sr sc my mx : ℤ) (t0 : ℚ) (rng0 : Rng)
    (b : Bolt) (t : ℚ) (rng : Rng) (bs : List Bolt) :
    (bolt_create sr sc my mx t0 rng0).1.segs ≠ [] ∧
    b.segs.length ≤ (bolt_update b t rng).1.segs.length ∧
    ((bolt_update b t rng).2.1 = false ↔
      ∀ s ∈ (bolt_update b t rng).1.segs, SEGMENT_LIFESPAN < t - s.birth) ∧
    (bolts_phase t bs rng).1 =
      ((bolt_update_all t bs rng).1).filter (bolt_alive t) := by
  refine ⟨by simp [bolt_create], (bolt_update_spec b t rng).2.1.length_le,
    ?_, bolts_phase_filter t bs rng⟩
  rw [show (bolt_update b t rng).2.1 =
    bolt_alive t (bolt_update b t rng).1 from rfl]
  exact bolt_alive_false_iff t _

/-- Witness for C1: a frozen one-segment bolt of age 2 s reports dead
(every segment expired), and a freshly created bolt has segments. -/
theorem c1_bolt_removal_witness :
    (bolt_update ⟨5, false, 0, 10, 10, [⟨0, 0, 0⟩], 1⟩ 2 []).2.1 = false ∧
    (bolt_create 0 0 20 80 0 []).1.segs ≠ [] := by
  constructor
  · apply (c1_bolt_removal 0 0 20 80 0 [] _ 2 [] []).2.2.1.mpr
    intro s hs
    have hsegs : (bolt_update
        (⟨5, false, 0, 10, 10, [⟨0, 0, 0⟩], 1⟩ : Bolt) 2 []).1.segs =
        [⟨0, 0, 0⟩] := rfl
    rw [hsegs, List.mem_singleton] at hs
    subst hs
    norm_num [SEGMENT_LIFESPAN]
  · exact (c1_bolt_removal 0 0 20 80 0 []
      ⟨5, false, 0, 10, 10, [⟨0, 0, 0⟩], 1⟩ 2 [] []).1

/-- Claim C2: the trunk (primary growth path) of a bolt never exceeds
`target_len` — the well-formedness `BoltWF` holds at creation and is
preserved by every update — while the total segment count may exceed
`target_len`, as the concrete run in the last conjunct shows. -/
theorem c2_trunk_bound :
    (∀ (b : Bolt) (t : ℚ) (rng : Rng), BoltWF b → BoltWF (bolt_update b t rng).1) ∧
    (∀ (sr sc my mx : ℤ) (t : ℚ) (rng : Rng),
      BoltWF (bolt_create sr sc my mx t rng).1) ∧
    ((bolt_update (bolt_create 0 5 4 10 0 [0]).1 1
        [0, 2, 2, 2, 2, 2147483647]).1.target_len <
      ((bolt_update (bolt_create 0 5 4 10 0 [0]).1 1
        [0, 2, 2, 2, 2, 2147483647]).1.segs.length : ℤ)) := by
  refine ⟨?_, ?_, ?_⟩
  · intro b t rng hwf
    obtain ⟨hfields, _, hdisj⟩ := bolt_update_spec b t rng
    obtain ⟨hwf1, hwf2⟩ := hwf
    rcases hdisj with ⟨htr, hsg⟩ | ⟨htr, hlt, hlen⟩
    · constructor
      · rw [htr, hfields.1]; exact hwf1
      · rw [htr, hsg]; exact hwf2
    · constructor
      · rw [htr, hfields.1]
        push_cast
        omega
      · rw [htr]
        omega
  · intro sr sc my mx t rng
    constructor
    · have := bolt_create_target_ge_two sr sc my mx t rng
      have htr : (bolt_create sr sc my mx t rng).1.trunk = 1 := rfl
      rw [htr]
      push_cast
      omega
    · exact le_refl _
  · have h1 : bolt_min_len 4 = 2 := by decide
    have h2 : bolt_max_len 4 = 2 := by decide
    norm_num [bolt_update, bolt_grow, grow_added, draw_branches, branch_loop,
      fork_step, fork_offset, nextRand, randReal, branch_offset, clamp_col,
      next_row, bolt_create, h1, h2, RAND_MAX, LIGHTNING_GROWTH_DELAY,
      LIGHTNING_BRANCH_CHANCE, LIGHTNING_MAX_BRANCHES, FORK_CHANCE,
      FORK_HORIZONTAL_SPREAD, SEGMENT_LIFESPAN, List.getLastD]

/-- Witness for C2: the creation invariant holds concretely and is
preserved by a concrete update whose total segment count (4) exceeds
`target_len` (2). -/
theorem c2_trunk_bound_witness :
    BoltWF (bolt_create 0 5 4 10 0 [0]).1 ∧
    BoltWF (bolt_update (bolt_create 0 5 4 10 0 [0]).1 1
      [0, 2, 2, 2, 2, 2147483647]).1 :=
  ⟨c2_trunk_bound.2.1 0 5 4 10 0 [0],
   c2_trunk_bound.1 _ 1 [0, 2, 2, 2, 2, 2147483647]
     (c2_trunk_bound.2.1 0 5 4 10 0 [0])⟩

/-! ## Frame-loop phase lemmas -/

theorem input_phase_fields (s : Scene) (ch : ℤ) (s2 : Scene)
    (h : input_phase s ch = some s2) :
    s2.rows = s.rows ∧ s2.cols = s.cols ∧ s2.bolts = s.bolts ∧
    s2.rain = s.rain ∧ s2.resized = s.resized := by
  unfold input_phase at h
  split_ifs at h
  all_goals cases h
  all_goals exact ⟨rfl, rfl, rfl, rfl, rfl⟩

theorem spawn_bolt_phase_spec (s : Scene) (t : ℚ) (rng : Rng) :
    ((spawn_bolt_phase s t rng).1.rows = s.rows ∧
     (spawn_bolt_phase s t rng).1.cols = s.cols ∧
     (spawn_bolt_phase s t rng).1.rain = s.rain ∧
     (spawn_bolt_phase s t rng).1.thunder = s.thunder ∧
     (spawn_bolt_phase s t rng).1.resized = s.resized) ∧
    (s.thunder = false → spawn_bolt_phase s t rng = (s, rng)) ∧
    (∀ b ∈ (spawn_bolt_phase s t rng).1.bolts,
      b ∈ s.bolts ∨ (b.max_y = s.rows ∧ b.max_x = s.cols)) ∧
    (s.bolts.length ≤ 3 → (spawn_bolt_phase s t rng).1.bolts.length ≤ 3) := by
  simp only [spawn_bolt_phase]
  split_ifs with h1 h2 h3
  · refine ⟨⟨rfl, rfl, rfl, rfl, rfl⟩, ?_, ?_, ?_⟩
    · intro hf
      rw [hf] at h1
      cases h1.1
    · intro b hb
      rw [List.mem_append] at hb
      rcases hb with hb | hb
      · exact Or.inl hb
      · rw [List.mem_singleton] at hb
        subst hb
        exact Or.inr ⟨rfl, rfl⟩
    · intro _
      have h4 := h1.2
      simp only [List.length_append, List.length_singleton]
      omega
  · refine ⟨⟨rfl, rfl, rfl, rfl, rfl⟩, ?_, ?_, ?_⟩
    · intro hf
      rw [hf] at h1
      cases h1.1
    · intro b hb
      rw [List.mem_append] at hb
      rcases hb with hb | hb
      · exact Or.inl hb
      · rw [List.mem_singleton] at hb
        subst hb
        exact Or.inr ⟨rfl, rfl⟩
    · intro _
      have h4 := h1.2
      simp only [List.length_append, List.length_singleton]
      omega
  · refine ⟨⟨rfl, rfl, rfl, rfl, rfl⟩, ?_, fun b hb => Or.inl hb, fun h => h⟩
    intro hf
    rw [hf] at h1
    cases h1.1
  · exact ⟨⟨rfl, rfl, rfl, rfl, rfl⟩, fun _ => rfl,
      fun b hb => Or.inl hb, fun h => h⟩

theorem bolts_phase_length (t : ℚ) (bs : List Bolt) : ∀ rng : Rng,
    (bolts_phase t bs rng).1.length ≤ bs.length := by
  induction bs with
  | nil => intro rng; simp [bolts_phase]
  | cons b rest ih =>
      intro rng
      simp only [bolts_phase]
      split
      · simpa using Nat.succ_le_succ (ih _)
      · simp only [List.length_cons]
        exact le_trans (ih _) (Nat.le_succ _)

theorem bolts_phase_dims (Y X : ℤ) (t : ℚ) (bs : List Bolt) : ∀ rng : Rng,
    (∀ b ∈ bs, b.max_y = Y ∧ b.max_x = X) →
    ∀ b' ∈ (bolts_phase t bs rng).1, b'.max_y = Y ∧ b'.max_x = X := by
  induction bs with
  | nil => intro rng _ b' hb'; simp [bolts_phase] at hb'
  | cons b rest ih =>
      intro rng hall b' hb'
      simp only [bolts_phase] at hb'
      split at hb'
      · rw [List.mem_cons] at hb'
        rcases hb' with rfl | hb'
        · have hb := hall b (List.mem_cons_self b rest)
          have hu := (bolt_update_spec b t rng).1
          exact ⟨by rw [hu.2.1, hb.1], by rw [hu.2.2, hb.2]⟩
        · exact ih _ (fun x hx => hall x (List.mem_cons_of_mem b hx)) b' hb'
      · exact ih _ (fun x hx => hall x (List.mem_cons_of_mem b hx)) b' hb'

theorem rain_spawn_phase_fields (s : Scene) (rng : Rng) :
    (rain_spawn_phase s rng).1.rows = s.rows ∧
    (rain_spawn_phase s rng).1.cols = s.cols ∧
    (rain_spawn_phase s rng).1.bolts = s.bolts ∧
    (rain_spawn_phase s rng).1.thunder = s.thunder ∧
    (rain_spawn_phase s rng).1.resized = s.resized := by
  simp only [rain_spawn_phase]
  split_ifs <;> exact ⟨rfl, rfl, rfl, rfl, rfl⟩

theorem frame_core_spec (s2 : Scene) (t : ℚ) (rng : Rng) :
    ((frame_core s2 t rng).1.rows = s2.rows ∧
     (frame_core s2 t rng).1.cols = s2.cols ∧
     (frame_core s2 t rng).1.thunder = s2.thunder ∧
     (frame_core s2 t rng).1.resized = s2.resized) ∧
    (frame_core s2 t rng).1.bolts =
      (bolts_phase t (spawn_bolt_phase s2 t rng).1.bolts
        (spawn_bolt_phase s2 t rng).2).1 ∧
    (∀ d ∈ (frame_core s2 t rng).1.rain, cIntQ d.y < s2.rows) := by
  simp only [frame_core]
  refine ⟨⟨?_, ?_, ?_, ?_⟩, ?_, ?_⟩
  · rw [(rain_spawn_phase_fields _ _).1, (spawn_bolt_phase_spec s2 t rng).1.1]
  · rw [(rain_spawn_phase_fields _ _).2.1,
      (spawn_bolt_phase_spec s2 t rng).1.2.1]
  · rw [(rain_spawn_phase_fields _ _).2.2.2.1,
      (spawn_bolt_phase_spec s2 t rng).1.2.2.2.1]
  · rw [(rain_spawn_phase_fields _ _).2.2.2.2,
      (spawn_bolt_phase_spec s2 t rng).1.2.2.2.2]
  · rw [(rain_spawn_phase_fields _ _).2.2.1]
  · intro d hd
    have h1 := advance_retire_mem _ _ d hd
    have h2 := h1.1
    rw [(rain_spawn_phase_fields _ _).1,
      (spawn_bolt_phase_spec s2 t rng).1.1] at h2
    exact h2

/-! ## Claims C7, C8, C10: resize, thunder toggle, bolt count -/

/-- Claim C7: acknowledging a pending resize empties the raindrop store,
removes every bolt (releasing their segment storage), re-reads the
dimensions and clears the flag while leaving the thunderstorm flag
alone; and in the frame that acknowledged it, every bolt in the
resulting store was created against the new bounds and every surviving
raindrop respects the new height. -/
theorem c7_resize_ack (s : Scene) (nd : ℤ × ℤ) (ch : ℤ) (t : ℚ) (rng : Rng)
    (h : s.resized = true) :
    ((resize_phase s nd).rain = [] ∧ (resize_phase s nd).bolts = [] ∧
     (resize_phase s nd).rows = nd.1 ∧ (resize_phase s nd).cols = nd.2 ∧
     (resize_phase s nd).thunder = s.thunder ∧
     (resize_phase s nd).resized = false) ∧
    (∀ (s' : Scene) (rng' : Rng), frame_step s nd ch t rng = some (s', rng') →
      (∀ b ∈ s'.bolts, b.max_y = nd.1 ∧ b.max_x = nd.2) ∧
      (∀ d ∈ s'.rain, cIntQ d.y < nd.1)) := by
  have hres : resize_phase s nd =
      { s with
        resized := false
        rows := nd.1
        cols := nd.2
        rain := []
        bolts := [] } := by
    unfold resize_phase
    rw [if_pos h]
  refine ⟨by rw [hres]; exact ⟨rfl, rfl, rfl, rfl, rfl, rfl⟩, ?_⟩
  intro s' rng' hstep
  unfold frame_step at hstep
  cases hinp : input_phase (resize_phase s nd) ch with
  | none => rw [hinp] at hstep; cases hstep
  | some s2 =>
      rw [hinp] at hstep
      injection hstep with hp
      have hs' : s' = (frame_core s2 t rng).1 := by rw [hp]
      subst hs'
      have hfi := input_phase_fields _ _ _ hinp
      have hrows : s2.rows = nd.1 := by rw [hfi.1, hres]
      have hcols : s2.cols = nd.2 := by rw [hfi.2.1, hres]
      have hbolts : s2.bolts = [] := by rw [hfi.2.2.1, hres]
      constructor
      · intro b hb
        rw [(frame_core_spec s2 t rng).2.1] at hb
        refine bolts_phase_dims nd.1 nd.2 t _ _ ?_ b hb
        intro b0 hb0
        rcases (spawn_bolt_phase_spec s2 t rng).2.2.1 b0 hb0 with hmem | hdims
        · rw [hbolts] at hmem
          cases hmem
        · rw [hrows, hcols] at hdims
          exact hdims
      · intro d hd
        have h2 := (frame_core_spec s2 t rng).2.2 d hd
        rw [hrows] at h2
        exact h2

/-- Witness for C7: a concrete resized scene is cleared, gets the new
dimensions and keeps its thunderstorm flag. -/
theorem c7_resize_ack_witness :
    (resize_phase ⟨10, 20, [], [], false, true⟩ (5, 8)).bolts = [] ∧
    (resize_phase ⟨10, 20, [], [], false, true⟩ (5, 8)).rain = [] ∧
    (resize_phase ⟨10, 20, [], [], false, true⟩ (5, 8)).rows = 5 ∧
    (resize_phase ⟨10, 20, [], [], false, true⟩ (5, 8)).thunder = false := by
  have hc := (c7_resize_ack ⟨10, 20, [], [], false, true⟩ (5, 8) 0 0 [] rfl).1
  exact ⟨hc.2.1, hc.1, hc.2.2.1, hc.2.2.2.2.1⟩

/-- Claim C8: toggling thunderstorm mode never touches the bolt store
(the toggle only flips the flag), with the mode off the spawn gate never
creates a bolt (and draws no random number), and a full frame with the
mode off evolves the bolt store exactly by aging/compaction. -/
theorem c8_thunder_toggle (s : Scene) (nd : ℤ × ℤ) (t : ℚ) (rng : Rng) :
    (input_phase s 116 = some { s with thunder := !s.thunder } ∧
     (∀ (ch : ℤ) (s2 : Scene), input_phase s ch = some s2 →
        s2.bolts = s.bolts)) ∧
    (s.thunder = false → spawn_bolt_phase s t rng = (s, rng)) ∧
    (s.thunder = false → s.resized = false →
      ∀ (s' : Scene) (rng' : Rng),
        frame_step s nd 0 t rng = some (s', rng') →
          s'.bolts = (bolts_phase t s.bolts rng).1) := by
  refine ⟨⟨by norm_num [input_phase],
    fun ch s2 hinp => (input_phase_fields s ch s2 hinp).2.2.1⟩,
    (spawn_bolt_phase_spec s t rng).2.1, ?_⟩
  intro hth hre s' rng' hstep
  unfold frame_step at hstep
  have hrz : resize_phase s nd = s := by
    unfold resize_phase
    rw [if_neg]
    rw [hre]
    exact Bool.false_ne_true
  rw [hrz] at hstep
  have hinp : input_phase s 0 = some s := by norm_num [input_phase]
  rw [hinp] at hstep
  injection hstep with hp
  have hs' : s' = (frame_core s t rng).1 := by rw [hp]
  subst hs'
  rw [(frame_core_spec s t rng).2.1, (spawn_bolt_phase_spec s t rng).2.1 hth]

/-- Witness for C8: on a scene holding one bolt, the toggle keeps the
bolt, the spawn phase with the mode off is the identity, and the frame
body reduces the store to exactly the aged survivors. -/
theorem c8_thunder_toggle_witness :
    (input_phase ⟨10, 20, [], [⟨5, false, 0, 10, 20, [⟨0, 0, 0⟩], 1⟩], true,
        false⟩ 116 =
      some ⟨10, 20, [], [⟨5, false, 0, 10, 20, [⟨0, 0, 0⟩], 1⟩], false,
        false⟩) ∧
    spawn_bolt_phase ⟨10, 20, [], [⟨5, false, 0, 10, 20, [⟨0, 0, 0⟩], 1⟩],
        false, false⟩ (1/10) [5] =
      (⟨10, 20, [], [⟨5, false, 0, 10, 20, [⟨0, 0, 0⟩], 1⟩], false, false⟩,
        [5]) ∧
    (frame_core ⟨10, 20, [], [⟨5, false, 0, 10, 20, [⟨0, 0, 0⟩], 1⟩], false,
        false⟩ (1/10) [2147483647]).1.bolts =
      (bolts_phase (1/10) [⟨5, false, 0, 10, 20, [⟨0, 0, 0⟩], 1⟩]
        [2147483647]).1 := by
  refine ⟨(c8_thunder_toggle ⟨10, 20, [],
      [⟨5, false, 0, 10, 20, [⟨0, 0, 0⟩], 1⟩], true, false⟩ (10, 20) 0
      []).1.1, (c8_thunder_toggle ⟨10, 20, [],
      [⟨5, false, 0, 10, 20, [⟨0, 0, 0⟩], 1⟩], false, false⟩ (10, 20) (1/10)
      [5]).2.1 rfl, ?_⟩
  exact (c8_thunder_toggle ⟨10, 20, [],
      [⟨5, false, 0, 10, 20, [⟨0, 0, 0⟩], 1⟩], false, false⟩ (10, 20) (1/10)
      [2147483647]).2.2 rfl rfl _ _ rfl

/-- Claim C10: the bolt store never holds more than 3 bolts: if a frame
starts with at most 3, then after the resize step, the input step, the
spawn gate (which only fires below 3) and the compaction, every
intermediate store and the final store hold at most 3. -/
theorem c10_bolt_count (s : Scene) (nd : ℤ × ℤ) (ch : ℤ) (t : ℚ) (rng : Rng)
    (h : s.bolts.length ≤ 3) :
    (resize_phase s nd).bolts.length ≤ 3 ∧
    (∀ s2 : Scene, input_phase (resize_phase s nd) ch = some s2 →
      s2.bolts.length ≤ 3 ∧
      (spawn_bolt_phase s2 t rng).1.bolts.length ≤ 3 ∧
      (bolts_phase t (spawn_bolt_phase s2 t rng).1.bolts
        (spawn_bolt_phase s2 t rng).2).1.length ≤ 3) ∧
    (∀ (s' : Scene) (rng' : Rng), frame_step s nd ch t rng = some (s', rng') →
      s'.bolts.length ≤ 3) := by
  have hres : (resize_phase s nd).bolts.length ≤ 3 := by
    unfold resize_phase
    split_ifs
    · exact Nat.zero_le 3
    · exact h
  refine ⟨hres, ?_, ?_⟩
  · intro s2 hinp
    have hfi := input_phase_fields _ _ _ hinp
    have h2 : s2.bolts.length ≤ 3 := by rw [hfi.2.2.1]; exact hres
    have h3 := (spawn_bolt_phase_spec s2 t rng).2.2.2 h2
    exact ⟨h2, h3, le_trans (bolts_phase_length t _ _) h3⟩
  · intro s' rng' hstep
    unfold frame_step at hstep
    cases hinp : input_phase (resize_phase s nd) ch with
    | none => rw [hinp] at hstep; cases hstep
    | some s2 =>
        rw [hinp] at hstep
        injection hstep with hp
        have hs' : s' = (frame_core s2 t rng).1 := by rw [hp]
        subst hs'
        rw [(frame_core_spec s2 t rng).2.1]
        have hfi := input_phase_fields _ _ _ hinp
        have h2 : s2.bolts.length ≤ 3 := by rw [hfi.2.2.1]; exact hres
        exact le_trans (bolts_phase_length t _ _)
          ((spawn_bolt_phase_spec s2 t rng).2.2.2 h2)

/-- Witness for C10: a concrete empty-store thunderstorm frame keeps the
bolt count within 3 at the spawn gate. -/
theorem c10_bolt_count_witness :
    (spawn_bolt_phase ⟨10, 20, [], [], true, false⟩ 0
      [2147483647]).1.bolts.length ≤ 3 := by
  have hc := (c10_bolt_count ⟨10, 20, [], [], true, false⟩ (10, 20) 0 0
    [2147483647] (by norm_num)).2.1 ⟨10, 20, [], [], true, false⟩ rfl
  exact hc.2.1
